import Mathlib

/-!
Verification development for the starship-falcon-game repository.

The repository holds two Python programs:
  - `starship_falcon_3d.py`: a 2D arcade shooter (vector physics, entities,
    bounding-box collision, a three-state menu/playing/game-over machine);
  - `starship_falcon.py`: a terminal ASCII rocket animation.

This file gives a shallow embedding of the pure data model and the state
transitions of both programs: Python floats are modelled as real numbers,
Python ints as integers, mutation as explicit state passing.  Rendering-only
fields and methods (colors, fonts, pygame surfaces, the parallel color
buffer of the terminal program) are elided where they cannot influence the
properties proved below; every elision is noted in the doc comment of the
definition concerned.  Calls into `random` are modelled by passing the
randomly drawn data in as explicit parameters.
-/

namespace StarshipFalcon

/-! ### Game constants (starship_falcon_3d.py, lines 14-36) -/

def SCREEN_WIDTH : ℤ := 1280

def SCREEN_HEIGHT : ℤ := 720

noncomputable def MAX_SPEED : ℝ := 5

noncomputable def FRICTION : ℝ := 0.95

def STATE_MENU : ℕ := 0

def STATE_PLAYING : ℕ := 1

def STATE_GAME_OVER : ℕ := 2

/-! ### Vector2 (starship_falcon_3d.py, lines 39-72) -/

/-- Embeds class `Vector2`: a 2D vector of floats, modelled over `ℝ`. -/
structure Vector2 where
  x : ℝ
  y : ℝ

/-- Embeds `Vector2.__add__`. -/
instance : Add Vector2 := ⟨fun a b => ⟨a.x + b.x, a.y + b.y⟩⟩

/-- Embeds `Vector2.__sub__`. -/
instance : Sub Vector2 := ⟨fun a b => ⟨a.x - b.x, a.y - b.y⟩⟩

/-- Embeds `Vector2.__mul__` (vector times scalar). -/
instance : HMul Vector2 ℝ Vector2 := ⟨fun v s => ⟨v.x * s, v.y * s⟩⟩

/-- Embeds `Vector2.__truediv__` (vector divided by scalar). -/
noncomputable instance : HDiv Vector2 ℝ Vector2 := ⟨fun v s => ⟨v.x / s, v.y / s⟩⟩

/-- Embeds `Vector2.magnitude`: `math.sqrt(self.x ** 2 + self.y ** 2)`. -/
noncomputable def Vector2.magnitude (v : Vector2) : ℝ :=
  Real.sqrt (v.x ^ 2 + v.y ^ 2)

/-- Embeds `Vector2.normalize`: divides both components by the magnitude
when the magnitude is nonzero, otherwise leaves the vector unchanged. -/
noncomputable def Vector2.normalize (v : Vector2) : Vector2 :=
  if v.magnitude ≠ 0 then ⟨v.x / v.magnitude, v.y / v.magnitude⟩ else v

/-- Embeds `Vector2.limit`: when the magnitude exceeds `max_speed`, the
vector is normalized and both components are scaled by `max_speed`;
otherwise the vector is unchanged. -/
noncomputable def Vector2.limit (v : Vector2) (max_speed : ℝ) : Vector2 :=
  if v.magnitude > max_speed then
    ⟨v.normalize.x * max_speed, v.normalize.y * max_speed⟩
  else v

/-! ### GameObject (starship_falcon_3d.py, lines 75-108) -/

/-- Embeds class `GameObject`: position, velocity, acceleration, bounding
box and alive flag.  The rendering-only fields `angle` and `color` are
elided (no claim reads them and no modelled method writes them). -/
structure GameObject where
  position : Vector2
  velocity : Vector2
  acceleration : Vector2
  width : ℝ
  height : ℝ
  alive : Bool

/-- Embeds `GameObject.update` (lines 87-93): `velocity += acceleration;
velocity *= FRICTION; velocity.limit(MAX_SPEED); position += velocity;
acceleration = Vector2(0, 0)`.  The `dt` argument is accepted but, as in
the source, never used. -/
noncomputable def GameObject.update (g : GameObject) (dt : ℝ) : GameObject :=
  let v1 := g.velocity + g.acceleration
  let v2 := v1 * FRICTION
  let v3 := v2.limit MAX_SPEED
  { g with velocity := v3, position := g.position + v3, acceleration := ⟨0, 0⟩ }

/-- Embeds `GameObject.check_collision` (lines 103-108): the axis-aligned
bounding-box overlap test. -/
def GameObject.check_collision (a b : GameObject) : Prop :=
  a.position.x < b.position.x + b.width ∧
  a.position.x + a.width > b.position.x ∧
  a.position.y < b.position.y + b.height ∧
  a.position.y + a.height > b.position.y

noncomputable instance (a b : GameObject) : Decidable (a.check_collision b) := by
  unfold GameObject.check_collision
  infer_instance

/-! ### Starship (starship_falcon_3d.py, lines 111-200) -/

/-- Embeds class `Starship` (a `GameObject` with health and score).  The
fields `speed`, `shoot_cooldown`, `shoot_rate` and the engine-particle list
are elided: no modelled method reads or writes them. -/
structure Starship extends GameObject where
  max_health : ℤ
  health : ℤ
  score : ℤ

/-- Embeds `Starship.__init__` (lines 113-122): width 40, height 60,
`max_health = 100`, `health = max_health`, `score = 0`, zero velocity and
acceleration, alive. -/
def Starship.init (x y : ℝ) : Starship :=
  { position := ⟨x, y⟩, velocity := ⟨0, 0⟩, acceleration := ⟨0, 0⟩,
    width := 40, height := 60, alive := true,
    max_health := 100, health := 100, score := 0 }

/-- Embeds `Starship.take_damage` (lines 191-196): `health -= damage; if
health <= 0: health = 0; alive = False`. -/
def Starship.take_damage (s : Starship) (damage : ℤ) : Starship :=
  let h := s.health - damage
  if h ≤ 0 then { s with health := 0, alive := false }
  else { s with health := h }

/-- Embeds `Starship.add_score` (lines 198-200): `score += points`. -/
def Starship.add_score (s : Starship) (points : ℤ) : Starship :=
  { s with score := s.score + points }

/-! ### Projectile, Enemy, SpaceDebris, Particle (lines 203-369) -/

/-- Embeds class `Projectile` (a `GameObject` with a lifetime clock).  The
rendering-only `color` field is elided. -/
structure Projectile extends GameObject where
  lifetime : ℝ
  time_alive : ℝ

/-- Embeds class `Enemy` (a `GameObject` with health).  The movement
pattern and shooting fields (`pattern`, `pattern_timer`, `shoot_cooldown`,
`shoot_rate`) are elided: no modelled method reads or writes them. -/
structure Enemy extends GameObject where
  health : ℤ

/-- Embeds `Enemy.take_damage` (lines 284-288): `health -= damage; if
health <= 0: alive = False` (no clamping of health, unlike the player). -/
def Enemy.take_damage (e : Enemy) (damage : ℤ) : Enemy :=
  let h := e.health - damage
  if h ≤ 0 then { e with health := h, alive := false }
  else { e with health := h }

/-- Embeds class `SpaceDebris` (a `GameObject`).  The rendering-only
fields (`rotation`, `rotation_speed`, `shape`, `color`) are elided. -/
structure SpaceDebris extends GameObject where

/-- Embeds class `Particle` (a `GameObject` with a lifetime clock).  The
rendering-only `color` field is elided; the randomly drawn size and
velocity of `Particle.__init__` are simply fields of the structure. -/
structure Particle extends GameObject where
  lifetime : ℝ
  time_alive : ℝ

/-- Embeds `Particle.update` (lines 354-358): `position += velocity;
time_alive += dt; if time_alive > lifetime: alive = False`. -/
noncomputable def Particle.update (p : Particle) (dt : ℝ) : Particle :=
  let q : Particle :=
    { p with position := p.position + p.velocity, time_alive := p.time_alive + dt }
  if q.time_alive > q.lifetime then { q with alive := false } else q

/-! ### Game (starship_falcon_3d.py, lines 437-649)

The `Game` class is embedded through the fields that its modelled methods
touch: the scene state, the player, the four category collections, the
score and the two spawn timers.  The pygame screen, clock, fonts and the
`Background` starfield are rendering state and are elided.  The method
`create_explosion` (lines 614-624) draws 20 random particle velocities
from `random`; it is modelled by an explicit parameter
`explosion : ℝ → ℝ → List Particle` giving the burst of particles spawned
at a given (x, y). -/

/-- Embeds the simulation state of class `Game` (fields set in
`Game.__init__`, lines 444-453). -/
structure Game where
  state : ℕ
  starship : Starship
  projectiles : List Projectile
  enemies : List Enemy
  debris : List SpaceDebris
  particles : List Particle
  score : ℤ
  enemy_spawn_timer : ℝ
  debris_spawn_timer : ℝ

/-- Embeds the inner `for enemy in self.enemies ... break` loop of the
projectile-vs-enemy pass (lines 579-588): finds the first enemy that the
projectile overlaps, applies `take_damage(1)` to it, and reports its
position (where the explosion is spawned); `none` when no enemy is hit. -/
noncomputable def hitFirstEnemy (p : Projectile) :
    List Enemy → Option (List Enemy × Vector2)
  | [] => none
  | e :: es =>
      if p.toGameObject.check_collision e.toGameObject then
        some ((e.take_damage 1) :: es, e.position)
      else
        match hitFirstEnemy p es with
        | none => none
        | some (es2, pos) => some (e :: es2, pos)

/-- Embeds the projectile loop of `Game.check_collisions` (lines 577-594):
player projectiles (velocity.y < 0) damage the first overlapping enemy and
die; enemy projectiles (velocity.y > 0) damage the player by 20 on overlap
and die; each hit appends an explosion burst and, for player projectiles,
adds 100 to the player's score. -/
noncomputable def projectilePass (explosion : ℝ → ℝ → List Particle) :
    List Projectile → List Enemy → Starship → List Particle →
    List Projectile × List Enemy × Starship × List Particle
  | [], es, s, parts => ([], es, s, parts)
  | p :: ps, es, s, parts =>
      if p.velocity.y < 0 then
        match hitFirstEnemy p es with
        | some (es2, pos) =>
            let rest := projectilePass explosion ps es2 (s.add_score 100)
              (parts ++ explosion pos.x pos.y)
            ({ p with alive := false } :: rest.1, rest.2)
        | none =>
            let rest := projectilePass explosion ps es s parts
            (p :: rest.1, rest.2)
      else if p.velocity.y > 0 then
        if p.toGameObject.check_collision s.toGameObject then
          let rest := projectilePass explosion ps es (s.take_damage 20)
            (parts ++ explosion s.position.x s.position.y)
          ({ p with alive := false } :: rest.1, rest.2)
        else
          let rest := projectilePass explosion ps es s parts
          (p :: rest.1, rest.2)
      else
        let rest := projectilePass explosion ps es s parts
        (p :: rest.1, rest.2)

/-- Embeds the starship-vs-enemies loop of `Game.check_collisions`
(lines 597-601): each overlapping enemy deals 50 damage, dies and spawns
an explosion burst. -/
noncomputable def enemyPass (explosion : ℝ → ℝ → List Particle) :
    List Enemy → Starship → List Particle →
    List Enemy × Starship × List Particle
  | [], s, parts => ([], s, parts)
  | e :: es, s, parts =>
      if s.toGameObject.check_collision e.toGameObject then
        let rest := enemyPass explosion es (s.take_damage 50)
          (parts ++ explosion e.position.x e.position.y)
        ({ e with alive := false } :: rest.1, rest.2)
      else
        let rest := enemyPass explosion es s parts
        (e :: rest.1, rest.2)

/-- Embeds the starship-vs-debris loop of `Game.check_collisions`
(lines 604-608): each overlapping debris deals 30 damage, dies and spawns
an explosion burst. -/
noncomputable def debrisPass (explosion : ℝ → ℝ → List Particle) :
    List SpaceDebris → Starship → List Particle →
    List SpaceDebris × Starship × List Particle
  | [], s, parts => ([], s, parts)
  | d :: ds, s, parts =>
      if s.toGameObject.check_collision d.toGameObject then
        let rest := debrisPass explosion ds (s.take_damage 30)
          (parts ++ explosion d.position.x d.position.y)
        ({ d with alive := false } :: rest.1, rest.2)
      else
        let rest := debrisPass explosion ds s parts
        (d :: rest.1, rest.2)

/-- Embeds `Game.check_collisions` (lines 574-612): the three collision
passes in source order, then `if not self.starship.alive: self.state =
STATE_GAME_OVER`. -/
noncomputable def Game.check_collisions (explosion : ℝ → ℝ → List Particle)
    (g : Game) : Game :=
  let r1 := projectilePass explosion g.projectiles g.enemies g.starship g.particles
  let r2 := enemyPass explosion r1.2.1 r1.2.2.1 r1.2.2.2
  let r3 := debrisPass explosion g.debris r2.2.1 r2.2.2
  { g with projectiles := r1.1, enemies := r2.1, debris := r3.1,
           starship := r3.2.1, particles := r3.2.2,
           state := if r3.2.1.alive = false then STATE_GAME_OVER else g.state }

/-- Embeds `Game.start_game` (lines 638-649): enter `STATE_PLAYING` with a
fresh starship at `(SCREEN_WIDTH // 2, SCREEN_HEIGHT - 100)`, all four
category collections emptied, both spawn timers and the score reset to 0.
The final `background.speed = 0` line touches only the elided rendering
state. -/
def Game.start_game (g : Game) : Game :=
  { g with state := STATE_PLAYING,
           starship := Starship.init ((SCREEN_WIDTH / 2 : ℤ) : ℝ)
             ((SCREEN_HEIGHT - 100 : ℤ) : ℝ),
           projectiles := [], enemies := [], debris := [], particles := [],
           enemy_spawn_timer := 0, debris_spawn_timer := 0, score := 0 }

/-- Embeds the enemy-spawn step of `Game.update` (lines 521-525) together
with `Game.spawn_enemy` (lines 626-630): the timer accumulates `dt`; once
it exceeds 2.0 the freshly constructed enemy (whose random horizontal
position is the explicit argument `newEnemy`) is appended and the timer is
reset to 0. -/
noncomputable def spawnEnemyStep (timer dt : ℝ) (enemies : List Enemy)
    (newEnemy : Enemy) : ℝ × List Enemy :=
  let t := timer + dt
  if t > 2.0 then (0, enemies ++ [newEnemy]) else (t, enemies)

/-- Runs `spawnEnemyStep` over a sequence of ticks, each tick carrying its
`dt` and the enemy that `spawn_enemy` would construct on that tick. -/
noncomputable def runSpawnTicks (timer : ℝ) (enemies : List Enemy) :
    List (ℝ × Enemy) → ℝ × List Enemy
  | [] => (timer, enemies)
  | tick :: rest =>
      let st := spawnEnemyStep timer tick.1 enemies tick.2
      runSpawnTicks st.1 st.2 rest

/-! ### Terminal animation (starship_falcon.py)

Only the character buffer is modelled; the source keeps a parallel
`color_buffer` that is written cell-for-cell under the same bounds guard
as the character buffer, and it is elided here.  The buffer is modelled as
a total function from (row, column) coordinates to characters; the source
indexes with possibly negative offsets and guards every write with
`0 <= py < HEIGHT and 0 <= px < WIDTH`, so coordinates are integers. -/

/-- Terminal width constant `WIDTH = 80` (starship_falcon.py, line 14). -/
def TERM_WIDTH : ℤ := 80

/-- Terminal height constant `HEIGHT = 30` (starship_falcon.py, line 15). -/
def TERM_HEIGHT : ℤ := 30

/-- The terminal character grid, as a total function on coordinates. -/
abbrev Buffer : Type := ℤ → ℤ → Char

/-- Embeds a single guarded buffer write `if 0 <= py < HEIGHT and
0 <= px < WIDTH: buffer[py][px] = char`. -/
def writeCell (b : Buffer) (py px : ℤ) (c : Char) : Buffer :=
  if 0 ≤ py ∧ py < TERM_HEIGHT ∧ 0 ≤ px ∧ px < TERM_WIDTH then
    fun q p => if q = py ∧ p = px then c else b q p
  else b

/-- Embeds the `rocket_parts` stencil of `draw_rocket` (lines 76-109), as
(dy, dx, char) triples in source order; the per-part colors are elided
with the color buffer. -/
def rocket_parts : List (ℤ × ℤ × Char) :=
  [ (0, 0, '^'),
    (1, -1, '/'), (1, 0, '|'), (1, 1, '\\'),
    (2, -2, '/'), (2, -1, '█'), (2, 0, '█'), (2, 1, '█'), (2, 2, '\\'),
    (3, -1, '█'), (3, 0, '█'), (3, 1, '█'),
    (4, -2, '['), (4, -1, '='), (4, 0, '='), (4, 1, '='), (4, 2, ']'),
    (4, -3, '/'), (5, -4, '/'), (4, 3, '\\'), (5, 4, '\\') ]

/-- Embeds `flame_chars = ['|', '│', '║']` (line 122). -/
def flame_chars : List Char := ['|', '│', '║']

/-- Embeds `flame_char = flame_chars[flame_offset]` with
`flame_offset = frame % 3` (lines 119-123). -/
def flameGlyph (frame : ℕ) : Char :=
  flame_chars.get ⟨frame % 3, Nat.mod_lt frame (by norm_num)⟩

/-- Embeds `draw_rocket` (lines 73-148): the rocket stencil is written at
offsets from (x, y), then three flame tiers at rows y+5, y+6, y+7; the
inner glyph is `flame_chars[frame % 3]` and the third tier is written only
when `frame % 3 != 1`. -/
def draw_rocket (b : Buffer) (x y : ℤ) (frame : ℕ) : Buffer :=
  let b1 := rocket_parts.foldl
    (fun acc part => writeCell acc (y + part.1) (x + part.2.1) part.2.2) b
  let flame_offset := frame % 3
  let flame_char := flameGlyph frame
  let b2 := ([-1, 0, 1] : List ℤ).foldl
    (fun acc dx => writeCell acc (y + 5) (x + dx) flame_char) b1
  let flame_parts_2 : List (ℤ × Char) :=
    [(-2, '\\'), (-1, flame_char), (0, flame_char), (1, flame_char), (2, '/')]
  let b3 := flame_parts_2.foldl
    (fun acc pc => writeCell acc (y + 6) (x + pc.1) pc.2) b2
  if flame_offset ≠ 1 then
    let flame_parts_3 : List (ℤ × Char) :=
      [(-3, '\\'), (-2, flame_char), (-1, flame_char), (0, flame_char),
       (1, flame_char), (2, flame_char), (3, '/')]
    flame_parts_3.foldl
      (fun acc pc => writeCell acc (y + 7) (x + pc.1) pc.2) b3
  else b3

/-! ### Sample values used by the witness theorems -/

/-- A concrete enemy, as `Enemy(640, -50)` would build one (pattern and
shooting fields elided). -/
def sampleEnemy : Enemy :=
  { position := ⟨640, -50⟩, velocity := ⟨0, 0⟩, acceleration := ⟨0, 0⟩,
    width := 35, height := 50, alive := true, health := 3 }

/-- A concrete particle whose clock has already exceeded its lifetime. -/
def sampleParticle : Particle :=
  { position := ⟨0, 0⟩, velocity := ⟨0, 0⟩, acceleration := ⟨0, 0⟩,
    width := 3, height := 3, alive := true, lifetime := 1, time_alive := 2 }

/-- A concrete game sitting in the menu state. -/
def sampleMenuGame : Game :=
  { state := STATE_MENU, starship := Starship.init 640 620,
    projectiles := [], enemies := [], debris := [], particles := [],
    score := 7, enemy_spawn_timer := 1, debris_spawn_timer := 1 }

/-- A concrete game in the playing state with no entities in flight. -/
def samplePlayingGame : Game :=
  { state := STATE_PLAYING, starship := Starship.init 640 620,
    projectiles := [], enemies := [], debris := [], particles := [],
    score := 0, enemy_spawn_timer := 0, debris_spawn_timer := 0 }

/-- The health/alive consistency invariant of the player: whenever the
displayed health has reached 0 (the only way it can be ≤ 0 through
`Starship.take_damage`), the alive flag has been cleared. -/
def healthAliveInv (s : Starship) : Prop :=
  s.health ≤ 0 → s.alive = false

/-! ### Theorems -/

/-- C1: one call to `GameObject.update` performs exactly the sequence
velocity += acceleration; velocity *= FRICTION; velocity limited by
MAX_SPEED; position += velocity; acceleration reset to zero — and the
result does not depend on `dt`. -/
theorem update_sequence_and_dt_independent (g : GameObject) (dt dt2 : ℝ) :
    (g.update dt).velocity = ((g.velocity + g.acceleration) * FRICTION).limit MAX_SPEED ∧
    (g.update dt).position =
      g.position + ((g.velocity + g.acceleration) * FRICTION).limit MAX_SPEED ∧
    (g.update dt).acceleration = Vector2.mk 0 0 ∧
    g.update dt = g.update dt2 :=
  ⟨rfl, rfl, rfl, rfl⟩

/-- C3: `Vector2.normalize` on a vector of magnitude zero returns the
vector unchanged; the division by the magnitude sits under the
`magnitude ≠ 0` guard and is not reached. -/
theorem normalize_zero_noop (v : Vector2) (h : v.magnitude = 0) :
    v.normalize = v := by
  unfold Vector2.normalize
  simp [h]

/-- Witness for C3 at the zero vector. -/
theorem normalize_zero_noop_witness :
    (Vector2.mk 0 0).magnitude = 0 ∧
    (Vector2.mk 0 0).normalize = Vector2.mk 0 0 := by
  have h : (Vector2.mk 0 0).magnitude = 0 := by
    simp [Vector2.magnitude]
  exact ⟨h, normalize_zero_noop _ h⟩

/-- C4: a particle whose clock already exceeds its lifetime is marked not
alive by its next `Particle.update`, for every nonnegative `dt`. -/
theorem particle_expired_dies (p : Particle) (dt : ℝ)
    (hexp : p.time_alive > p.lifetime) (hdt : 0 ≤ dt) :
    (p.update dt).alive = false := by
  have h : p.time_alive + dt > p.lifetime := by linarith
  simp [Particle.update, h]

/-- Witness for C4 at a concrete expired particle. -/
theorem particle_expired_dies_witness :
    sampleParticle.time_alive > sampleParticle.lifetime ∧ (0 : ℝ) ≤ 1 ∧
    (sampleParticle.update 1).alive = false := by
  have h1 : sampleParticle.time_alive > sampleParticle.lifetime := by
    norm_num [sampleParticle]
  exact ⟨h1, by norm_num, particle_expired_dies _ _ h1 (by norm_num)⟩

/-- C5: the bounding-box collision test is symmetric. -/
theorem check_collision_symm (a b : GameObject) :
    a.check_collision b ↔ b.check_collision a := by
  unfold GameObject.check_collision
  constructor
  · rintro ⟨h1, h2, h3, h4⟩
    exact ⟨h2, h1, h4, h3⟩
  · rintro ⟨h1, h2, h3, h4⟩
    exact ⟨h2, h1, h4, h3⟩

/-- C7: `start_game`, fired from either the menu or the game-over state,
enters the playing state with score 0, all four category collections
empty, and both spawn timers reset to 0 (the score field of the fresh
starship, which the HUD displays, is 0 as well). -/
theorem start_game_resets (g : Game)
    (h : g.state = STATE_MENU ∨ g.state = STATE_GAME_OVER) :
    (g.start_game).state = STATE_PLAYING ∧
    (g.start_game).score = 0 ∧
    (g.start_game).starship.score = 0 ∧
    (g.start_game).projectiles = [] ∧
    (g.start_game).enemies = [] ∧
    (g.start_game).debris = [] ∧
    (g.start_game).particles = [] ∧
    (g.start_game).enemy_spawn_timer = 0 ∧
    (g.start_game).debris_spawn_timer = 0 :=
  ⟨rfl, rfl, rfl, rfl, rfl, rfl, rfl, rfl, rfl⟩

/-- Witness for C7 at a concrete game sitting in the menu. -/
theorem start_game_resets_witness :
    sampleMenuGame.state = STATE_MENU ∧
    (sampleMenuGame.start_game).state = STATE_PLAYING ∧
    (sampleMenuGame.start_game).score = 0 ∧
    (sampleMenuGame.start_game).enemies = [] := by
  have h := start_game_resets sampleMenuGame (Or.inl rfl)
  exact ⟨rfl, h.1, h.2.1, h.2.2.2.2.1⟩

/-- C10: `Starship.take_damage d` leaves health at `max (health - d) 0`;
it clears the alive flag exactly when the new health would be ≤ 0 and
leaves the flag untouched otherwise; `max_health` is unchanged, so for
nonnegative damage the displayed health stays within `[0, max_health]`. -/
theorem take_damage_clamps (s : Starship) (d : ℤ) :
    (s.take_damage d).health = max (s.health - d) 0 ∧
    (s.health - d ≤ 0 → (s.take_damage d).alive = false) ∧
    (0 < s.health - d → (s.take_damage d).alive = s.alive) ∧
    (s.take_damage d).max_health = s.max_health ∧
    (0 ≤ d → 0 ≤ s.max_health → s.health ≤ s.max_health →
      0 ≤ (s.take_damage d).health ∧ (s.take_damage d).health ≤ s.max_health) := by
  by_cases h : s.health - d ≤ 0
  · refine ⟨?_, fun _ => ?_, fun hlt => absurd hlt (by omega), ?_, fun hd hm hmax => ⟨?_, ?_⟩⟩
    all_goals simp [Starship.take_damage, h]
    all_goals omega
  · refine ⟨?_, fun hle => absurd hle h, fun _ => ?_, ?_, fun hd hm hmax => ⟨?_, ?_⟩⟩
    all_goals simp [Starship.take_damage, h]
    all_goals omega

/-- Witness for C10 at a concrete over-kill hit. -/
theorem take_damage_clamps_witness :
    (Starship.init 640 620).health - 150 ≤ 0 ∧
    ((Starship.init 640 620).take_damage 150).health =
      max ((Starship.init 640 620).health - 150) 0 ∧
    ((Starship.init 640 620).take_damage 150).alive = false := by
  have h := take_damage_clamps (Starship.init 640 620) 150
  have hle : (Starship.init 640 620).health - 150 ≤ 0 := by
    norm_num [Starship.init]
  exact ⟨hle, h.1, h.2.1 hle⟩

/-- Helper: the exact magnitude of the rescaled vector produced by the
over-limit branch of `Vector2.limit`. -/
theorem magnitude_rescaled (v : Vector2) (c : ℝ) (hc : 0 ≤ c)
    (hm : 0 < v.magnitude) :
    (Vector2.mk (v.x / v.magnitude * c) (v.y / v.magnitude * c)).magnitude = c := by
  have hne : v.magnitude ≠ 0 := ne_of_gt hm
  have hsq : v.x ^ 2 + v.y ^ 2 = v.magnitude ^ 2 := by
    unfold Vector2.magnitude
    rw [Real.sq_sqrt (by positivity)]
  have key : (v.x / v.magnitude * c) ^ 2 + (v.y / v.magnitude * c) ^ 2 = c ^ 2 := by
    field_simp
    linear_combination c ^ 2 * hsq
  show Real.sqrt ((v.x / v.magnitude * c) ^ 2 + (v.y / v.magnitude * c) ^ 2) = c
  rw [key, Real.sqrt_sq hc]

/-- C2: for every vector and every nonnegative bound, `Vector2.limit`
leaves the magnitude at most the bound, and is the identity whenever the
magnitude was already within the bound. -/
theorem limit_magnitude_le (v : Vector2) (c : ℝ) (hc : 0 ≤ c) :
    (v.limit c).magnitude ≤ c ∧ (v.magnitude ≤ c → v.limit c = v) := by
  constructor
  · by_cases h : v.magnitude > c
    · have hm : 0 < v.magnitude := lt_of_le_of_lt hc h
      have hne : v.magnitude ≠ 0 := ne_of_gt hm
      have hnorm : v.normalize = ⟨v.x / v.magnitude, v.y / v.magnitude⟩ := by
        unfold Vector2.normalize
        rw [if_pos hne]
      unfold Vector2.limit
      rw [if_pos h, hnorm]
      exact le_of_eq (magnitude_rescaled v c hc hm)
    · push_neg at h
      unfold Vector2.limit
      rw [if_neg (not_lt.mpr h)]
      exact h
  · intro hle
    unfold Vector2.limit
    rw [if_neg (not_lt.mpr hle)]

/-- Witness for C2 at the vector (3, 4) with bound 5. -/
theorem limit_magnitude_le_witness :
    (0 : ℝ) ≤ 5 ∧ ((Vector2.mk 3 4).limit 5).magnitude ≤ 5 ∧
    ((Vector2.mk 3 4).magnitude ≤ 5 →
      (Vector2.mk 3 4).limit 5 = Vector2.mk 3 4) := by
  have h := limit_magnitude_le (Vector2.mk 3 4) 5 (by norm_num)
  exact ⟨by norm_num, h.1, h.2⟩

/-- Helper: while the accumulated time stays at most the 2.0 threshold,
the spawn loop only accumulates and never spawns. -/
theorem runSpawnTicks_below_threshold (ticks : List (ℝ × Enemy)) :
    ∀ (timer : ℝ) (es : List Enemy),
      (∀ t ∈ ticks, 0 ≤ t.1) →
      timer + (ticks.map Prod.fst).sum ≤ 2 →
      runSpawnTicks timer es ticks = (timer + (ticks.map Prod.fst).sum, es) := by
  induction ticks with
  | nil =>
      intro timer es _ _
      simp [runSpawnTicks]
  | cons hd tl ih =>
      intro timer es hnn hsum
      have hhd : 0 ≤ hd.1 := hnn hd (List.mem_cons_self _ _)
      have htl : ∀ t ∈ tl, 0 ≤ t.1 := fun t ht => hnn t (List.mem_cons_of_mem _ ht)
      have hsums : 0 ≤ (tl.map Prod.fst).sum := by
        apply List.sum_nonneg
        intro a ha
        obtain ⟨t, ht, rfl⟩ := List.mem_map.mp ha
        exact htl t ht
      rw [List.map_cons, List.sum_cons] at hsum
      have hcond : ¬ ((2.0 : ℝ) < timer + hd.1) := by
        push_neg
        norm_num
        linarith
      rw [runSpawnTicks]
      simp only [spawnEnemyStep, gt_iff_lt, hcond, if_false, ite_false]
      rw [ih (timer + hd.1) es htl (by linarith)]
      rw [List.map_cons, List.sum_cons, add_assoc]

/-- Helper: starting from a timer at most 2, if the total accumulated time
crosses the threshold but stays at most 4, the spawn loop appends exactly
one enemy. -/
theorem runSpawnTicks_single_spawn (ticks : List (ℝ × Enemy)) :
    ∀ (timer : ℝ) (es : List Enemy),
      (∀ t ∈ ticks, 0 ≤ t.1) →
      0 ≤ timer → timer ≤ 2 →
      2 < timer + (ticks.map Prod.fst).sum →
      timer + (ticks.map Prod.fst).sum ≤ 4 →
      (runSpawnTicks timer es ticks).2.length = es.length + 1 := by
  induction ticks with
  | nil =>
      intro timer es _ _ h2 hgt _
      simp at hgt
      linarith
  | cons hd tl ih =>
      intro timer es hnn h0 h2 hgt hle
      have hhd : 0 ≤ hd.1 := hnn hd (List.mem_cons_self _ _)
      have htl : ∀ t ∈ tl, 0 ≤ t.1 := fun t ht => hnn t (List.mem_cons_of_mem _ ht)
      rw [List.map_cons, List.sum_cons] at hgt hle
      by_cases hc : (2.0 : ℝ) < timer + hd.1
      · have hrem : (0 : ℝ) + (tl.map Prod.fst).sum ≤ 2 := by
          norm_num at hc
          linarith
        rw [runSpawnTicks]
        simp only [spawnEnemyStep, hc, if_true, ite_true]
        rw [runSpawnTicks_below_threshold tl 0 (es ++ [hd.2]) htl hrem]
        simp
      · have hc2 : timer + hd.1 ≤ 2 := by
          push_neg at hc
          norm_num at hc
          exact hc
        rw [runSpawnTicks]
        simp only [spawnEnemyStep, hc, if_false, ite_false]
        exact ih (timer + hd.1) es htl (by linarith) hc2 (by linarith) (by linarith)

/-- C8: a tick that pushes the accumulated enemy-spawn timer past 2.0
appends exactly one enemy and resets the timer to 0; consequently, running
the spawn loop from a reset timer for a total accumulated time in (2, 4]
spawns exactly one enemy, not two. -/
theorem enemy_spawn_exactly_one :
    (∀ (timer dt : ℝ) (es : List Enemy) (e : Enemy),
        2 < timer + dt →
        spawnEnemyStep timer dt es e = (0, es ++ [e])) ∧
    (∀ (ticks : List (ℝ × Enemy)) (es : List Enemy),
        (∀ t ∈ ticks, 0 ≤ t.1) →
        2 < (ticks.map Prod.fst).sum →
        (ticks.map Prod.fst).sum ≤ 4 →
        (runSpawnTicks 0 es ticks).2.length = es.length + 1) := by
  constructor
  · intro timer dt es e h
    have hc : (2.0 : ℝ) < timer + dt := by
      norm_num
      linarith
    simp [spawnEnemyStep, hc]
  · intro ticks es hnn hgt hle
    exact runSpawnTicks_single_spawn ticks 0 es hnn le_rfl (by norm_num)
      (by simpa using hgt) (by simpa using hle)

/-- Witness for C8: a single over-threshold tick spawns one enemy, and a
two-tick run accumulating 2.1 time units spawns exactly one enemy. -/
theorem enemy_spawn_exactly_one_witness :
    spawnEnemyStep 1.9 0.2 [] sampleEnemy = (0, [sampleEnemy]) ∧
    (runSpawnTicks 0 [] [(1.5, sampleEnemy), (0.6, sampleEnemy)]).2.length = 1 := by
  constructor
  · exact enemy_spawn_exactly_one.1 1.9 0.2 [] sampleEnemy (by norm_num)
  · have h := enemy_spawn_exactly_one.2 [(1.5, sampleEnemy), (0.6, sampleEnemy)] []
      (by
        intro t ht
        rcases List.mem_cons.mp ht with h1 | h1
        · rw [h1]
          norm_num
        · rcases List.mem_cons.mp h1 with h2 | h2
          · rw [h2]
            norm_num
          · exact absurd h2 (List.not_mem_nil t))
      (by norm_num) (by norm_num)
    simpa using h

/-- Helper: `Starship.take_damage` establishes the health/alive invariant
unconditionally (it clamps health to 0 and clears the flag together). -/
theorem take_damage_establishes_inv (s : Starship) (d : ℤ) :
    healthAliveInv (s.take_damage d) := by
  unfold healthAliveInv Starship.take_damage
  by_cases h : s.health - d ≤ 0
  · simp [h]
  · simp [h]

/-- Helper: `Starship.add_score` preserves the health/alive invariant. -/
theorem add_score_preserves_inv (s : Starship) (n : ℤ) :
    healthAliveInv s → healthAliveInv (s.add_score n) := by
  unfold healthAliveInv Starship.add_score
  intro h
  simpa using h

/-- Helper: the projectile pass of `Game.check_collisions` preserves the
player's health/alive invariant. -/
theorem projectilePass_inv (explosion : ℝ → ℝ → List Particle)
    (ps : List Projectile) :
    ∀ (es : List Enemy) (s : Starship) (parts : List Particle),
      healthAliveInv s →
      healthAliveInv (projectilePass explosion ps es s parts).2.2.1 := by
  induction ps with
  | nil =>
      intro es s parts h
      simpa [projectilePass] using h
  | cons p ps2 ih =>
      intro es s parts h
      rw [projectilePass]
      by_cases h1 : p.velocity.y < 0
      · simp only [h1, if_true, ite_true]
        cases hh : hitFirstEnemy p es with
        | none => simpa [hh] using ih es s parts h
        | some r =>
            simpa [hh] using
              ih r.1 (s.add_score 100) (parts ++ explosion r.2.x r.2.y)
                (add_score_preserves_inv s 100 h)
      · simp only [h1, if_false, ite_false]
        by_cases h2 : p.velocity.y > 0
        · simp only [h2, if_true, ite_true]
          by_cases h3 : p.toGameObject.check_collision s.toGameObject
          · simpa [h3] using
              ih es (s.take_damage 20) (parts ++ explosion s.position.x s.position.y)
                (take_damage_establishes_inv s 20)
          · simpa [h3] using ih es s parts h
        · simpa [h2] using ih es s parts h

/-- Helper: the starship-vs-enemies pass preserves the player's
health/alive invariant. -/
theorem enemyPass_inv (explosion : ℝ → ℝ → List Particle) (es : List Enemy) :
    ∀ (s : Starship) (parts : List Particle),
      healthAliveInv s →
      healthAliveInv (enemyPass explosion es s parts).2.1 := by
  induction es with
  | nil =>
      intro s parts h
      simpa [enemyPass] using h
  | cons e es2 ih =>
      intro s parts h
      rw [enemyPass]
      by_cases hc : s.toGameObject.check_collision e.toGameObject
      · simpa [hc] using
          ih (s.take_damage 50) (parts ++ explosion e.position.x e.position.y)
            (take_damage_establishes_inv s 50)
      · simpa [hc] using ih s parts h

/-- Helper: the starship-vs-debris pass preserves the player's
health/alive invariant. -/
theorem debrisPass_inv (explosion : ℝ → ℝ → List Particle)
    (ds : List SpaceDebris) :
    ∀ (s : Starship) (parts : List Particle),
      healthAliveInv s →
      healthAliveInv (debrisPass explosion ds s parts).2.1 := by
  induction ds with
  | nil =>
      intro s parts h
      simpa [debrisPass] using h
  | cons d ds2 ih =>
      intro s parts h
      rw [debrisPass]
      by_cases hc : s.toGameObject.check_collision d.toGameObject
      · simpa [hc] using
          ih (s.take_damage 30) (parts ++ explosion d.position.x d.position.y)
            (take_damage_establishes_inv s 30)
      · simpa [hc] using ih s parts h

/-- Helper: the starship produced by `Game.check_collisions` satisfies the
health/alive invariant whenever the incoming one does. -/
theorem check_collisions_inv (explosion : ℝ → ℝ → List Particle) (g : Game)
    (h : healthAliveInv g.starship) :
    healthAliveInv (g.check_collisions explosion).starship := by
  unfold Game.check_collisions
  exact debrisPass_inv explosion g.debris _ _
    (enemyPass_inv explosion _ _ _
      (projectilePass_inv explosion g.projectiles g.enemies g.starship g.particles h))

/-- C6: from the playing state, `Game.check_collisions` ends in the
game-over state exactly when the starship is no longer alive; and when the
player entered the pass with health and alive flag consistent, a pass that
leaves health at or below zero never stays in the playing state. -/
theorem check_collisions_game_over (explosion : ℝ → ℝ → List Particle)
    (g : Game) (hplay : g.state = STATE_PLAYING) :
    ((g.check_collisions explosion).state = STATE_GAME_OVER ↔
      (g.check_collisions explosion).starship.alive = false) ∧
    (healthAliveInv g.starship →
      (g.check_collisions explosion).starship.health ≤ 0 →
      (g.check_collisions explosion).state = STATE_GAME_OVER) := by
  have hstate : (g.check_collisions explosion).state =
      (if (g.check_collisions explosion).starship.alive = false
        then STATE_GAME_OVER else g.state) := rfl
  constructor
  · rw [hstate]
    by_cases halive : (g.check_collisions explosion).starship.alive = false
    · simp [halive]
    · simp only [halive, if_false, ite_false]
      rw [hplay]
      constructor
      · intro h12
        exact absurd h12 (by norm_num [STATE_PLAYING, STATE_GAME_OVER])
      · intro hfalse
        exact Bool.noConfusion hfalse
  · intro hinv hle
    have halive : (g.check_collisions explosion).starship.alive = false :=
      check_collisions_inv explosion g hinv hle
    rw [hstate, if_pos halive]

/-- Witness for C6 at a concrete playing game with nothing in flight. -/
theorem check_collisions_game_over_witness :
    samplePlayingGame.state = STATE_PLAYING ∧
    ((samplePlayingGame.check_collisions (fun _ _ => [])).state = STATE_GAME_OVER ↔
      (samplePlayingGame.check_collisions (fun _ _ => [])).starship.alive = false) :=
  ⟨rfl, (check_collisions_game_over (fun _ _ => []) samplePlayingGame rfl).1⟩

/-- Helper: reading a written buffer anywhere but the written cell sees
the underlying buffer. -/
theorem writeCell_ne (b : Buffer) (py px : ℤ) (c : Char) (q p : ℤ)
    (h : ¬(q = py ∧ p = px)) : writeCell b py px c q p = b q p := by
  by_cases hg : 0 ≤ py ∧ py < TERM_HEIGHT ∧ 0 ≤ px ∧ px < TERM_WIDTH
  · simp [writeCell, hg, h]
  · simp [writeCell, hg]

/-- Helper: reading back a written in-bounds cell sees the character. -/
theorem writeCell_hit (b : Buffer) (py px : ℤ) (c : Char)
    (h1 : 0 ≤ py) (h2 : py < TERM_HEIGHT) (h3 : 0 ≤ px) (h4 : px < TERM_WIDTH) :
    writeCell b py px c py px = c := by
  simp [writeCell, h1, h2, h3, h4]

/-- Helper: the third flame tier (row 17) never writes row 15. -/
theorem tier3_read_15 (bb : Buffer) (c : Char) :
    (([(-3, '\\'), (-2, c), (-1, c), (0, c), (1, c), (2, c), (3, '/')] :
        List (ℤ × Char)).foldl
      (fun acc pc => writeCell acc (10 + 7) (40 + pc.1) pc.2) bb) 15 40 = bb 15 40 := by
  norm_num [writeCell_ne, TERM_WIDTH, TERM_HEIGHT]

/-- Helper: the third flame tier writes its glyph at (17, 40). -/
theorem tier3_read_17 (bb : Buffer) (c : Char) :
    (([(-3, '\\'), (-2, c), (-1, c), (0, c), (1, c), (2, c), (3, '/')] :
        List (ℤ × Char)).foldl
      (fun acc pc => writeCell acc (10 + 7) (40 + pc.1) pc.2) bb) 17 40 = c := by
  norm_num [writeCell_ne, writeCell_hit, TERM_WIDTH, TERM_HEIGHT]

/-- Helper: the second flame tier (row 16) never writes row 15. -/
theorem tier2_read_15 (bb : Buffer) (c : Char) :
    (([(-2, '\\'), (-1, c), (0, c), (1, c), (2, '/')] : List (ℤ × Char)).foldl
      (fun acc pc => writeCell acc (10 + 6) (40 + pc.1) pc.2) bb) 15 40 = bb 15 40 := by
  norm_num [writeCell_ne, TERM_WIDTH, TERM_HEIGHT]

/-- Helper: the second flame tier (row 16) never writes row 17. -/
theorem tier2_read_17 (bb : Buffer) (c : Char) :
    (([(-2, '\\'), (-1, c), (0, c), (1, c), (2, '/')] : List (ℤ × Char)).foldl
      (fun acc pc => writeCell acc (10 + 6) (40 + pc.1) pc.2) bb) 17 40 = bb 17 40 := by
  norm_num [writeCell_ne, TERM_WIDTH, TERM_HEIGHT]

/-- Helper: the first flame tier writes its glyph at (15, 40). -/
theorem tier1_read_15 (bb : Buffer) (c : Char) :
    ((([-1, 0, 1] : List ℤ)).foldl
      (fun acc dx => writeCell acc (10 + 5) (40 + dx) c) bb) 15 40 = c := by
  norm_num [writeCell_ne, writeCell_hit, TERM_WIDTH, TERM_HEIGHT]

/-- Helper: the first flame tier (row 15) never writes row 17. -/
theorem tier1_read_17 (bb : Buffer) (c : Char) :
    ((([-1, 0, 1] : List ℤ)).foldl
      (fun acc dx => writeCell acc (10 + 5) (40 + dx) c) bb) 17 40 = bb 17 40 := by
  norm_num [writeCell_ne, TERM_WIDTH, TERM_HEIGHT]

/-- Helper: the rocket stencil (rows 10 to 15) never writes row 17. -/
theorem stencil_read_17 (bb : Buffer) :
    (rocket_parts.foldl
      (fun acc part => writeCell acc (10 + part.1) (40 + part.2.1) part.2.2) bb) 17 40 =
      bb 17 40 := by
  norm_num [rocket_parts, writeCell_ne, TERM_WIDTH, TERM_HEIGHT]

/-- C9: with the rocket anchored at (x, y) = (40, 10) and the whole sprite
in bounds, the inner-flame cell at row y+5 holds the glyph selected from
the fixed 3-character cycle by `frame % 3`, and the outermost (third)
flame tier at row y+7 is written exactly when `frame % 3 ≠ 1` — otherwise
that cell still holds whatever the incoming buffer held. -/
theorem draw_rocket_flame_cycle (b : Buffer) (frame : ℕ) :
    draw_rocket b 40 10 frame 15 40 = flameGlyph frame ∧
    draw_rocket b 40 10 frame 17 40 =
      (if frame % 3 ≠ 1 then flameGlyph frame else b 17 40) := by
  have h3 : frame % 3 = 0 ∨ frame % 3 = 1 ∨ frame % 3 = 2 := by omega
  rcases h3 with h | h | h
  · constructor
    · simp only [draw_rocket, h]
      rw [if_pos (show (0 : ℕ) ≠ 1 by decide)]
      rw [tier3_read_15, tier2_read_15, tier1_read_15]
    · simp only [draw_rocket, h]
      rw [if_pos (show (0 : ℕ) ≠ 1 by decide), if_pos (show (0 : ℕ) ≠ 1 by decide)]
      rw [tier3_read_17]
  · constructor
    · simp only [draw_rocket, h]
      rw [if_neg (show ¬((1 : ℕ) ≠ 1) by decide)]
      rw [tier2_read_15, tier1_read_15]
    · simp only [draw_rocket, h]
      rw [if_neg (show ¬((1 : ℕ) ≠ 1) by decide), if_neg (show ¬((1 : ℕ) ≠ 1) by decide)]
      rw [tier2_read_17, tier1_read_17, stencil_read_17]
  · constructor
    · simp only [draw_rocket, h]
      rw [if_pos (show (2 : ℕ) ≠ 1 by decide)]
      rw [tier3_read_15, tier2_read_15, tier1_read_15]
    · simp only [draw_rocket, h]
      rw [if_pos (show (2 : ℕ) ≠ 1 by decide), if_pos (show (2 : ℕ) ≠ 1 by decide)]
      rw [tier3_read_17]

end StarshipFalcon
